import Mathlib

/-!
Shallow embedding of the Colosseum shared-memory image transport
(`Unreal/Plugins/AirSim/Source/SharedMemoryImageTransport.{h,cpp}`) and of the
async image-packing task (`Unreal/Plugins/AirSim/Source/ImagePackingAsyncTask.h`).

Machine integers are modelled as `Nat` with explicit reduction modulo `2^32`
where the C++ code performs 32-bit unsigned arithmetic.  The POSIX calls
(`shm_open`, `ftruncate`, `mmap`, `sem_open`) are modelled as succeeding; their
observable effects on the transport object are carried in `TransportState`.
The two counting semaphores are modelled by their counts (`writeSem`,
`readSem`); `sem_timedwait` on the write semaphore is modelled as succeeding
exactly when the count is positive and failing (timing out) when it is zero,
and `sem_post` as incrementing the count.  Two ghost fields instrument the
state without affecting behaviour: `segmentsCreated` counts `shm_open` create
calls, and `claimedLog` records the slot indices returned by
`GetNextWriteIndex` in order.
-/

namespace Colosseum

/-- Modulus of 32-bit unsigned arithmetic. -/
def U32 : Nat := 4294967296

/-- One image slot of the ring: sub-header fields plus pixel payload.
`PixelData` models the bytes of the slot payload region that have been
written (the mapped region is zero-filled by `ftruncate` at creation). -/
structure FSharedImageSlot where
  Width : Nat
  Height : Nat
  Timestamp : Nat
  ImageType : Nat
  DataSize : Nat
  PixelData : List Nat
deriving Repr, DecidableEq

/-- `FSharedImageSlot::HeaderSize` = sizeof(Width) + sizeof(Height) +
sizeof(Timestamp) + sizeof(ImageType) + sizeof(DataSize) = 4+4+8+4+4. -/
def FSharedImageSlot.HeaderSize : Nat := 4 + 4 + 8 + 4 + 4

/-- `sizeof(FSharedMemoryHeader)`: four u32 fields plus one u64, no padding
needed beyond natural alignment (4*4 + 8 = 24). -/
def sharedMemoryHeaderSize : Nat := 24

/-- `FSharedMemoryHeader::MAGIC_NUMBER` (0x41495253). -/
def MAGIC_NUMBER : Nat := 0x41495253

/-- State of one `FSharedMemoryImageTransport` object together with the
shared segment it maps.  `writeSemValid` / `readSemValid` model
`WriteSemaphore != SEM_FAILED` / `ReadSemaphore != SEM_FAILED`, `mapped`
models `SharedMemoryPtr != MAP_FAILED`, `fdOpen` models
`SharedMemoryFD >= 0`.  `headerPresent` models `Header != nullptr`
(note: `Shutdown` never resets the `Header` pointer). -/
structure TransportState where
  bIsInitialized : Bool
  headerPresent : Bool
  hdrMagic : Nat
  hdrNumSlots : Nat
  hdrSlotSize : Nat
  hdrWriteIndex : Nat
  hdrLastUpdateTime : Nat
  slots : List FSharedImageSlot
  writeSem : Nat
  readSem : Nat
  writeSemValid : Bool
  readSemValid : Bool
  mapped : Bool
  fdOpen : Bool
  maxSlots : Nat
  singleSlotSize : Nat
  totalSize : Nat
  segmentsCreated : Nat
  claimedLog : List Nat
deriving Repr, DecidableEq

/-- A freshly constructed transport object (the constructor body). -/
def initialState : TransportState :=
  { bIsInitialized := false
    headerPresent := false
    hdrMagic := 0
    hdrNumSlots := 0
    hdrSlotSize := 0
    hdrWriteIndex := 0
    hdrLastUpdateTime := 0
    slots := []
    writeSem := 0
    readSem := 0
    writeSemValid := false
    readSemValid := false
    mapped := false
    fdOpen := false
    maxSlots := 0
    singleSlotSize := 0
    totalSize := 0
    segmentsCreated := 0
    claimedLog := [] }

/-- `(SingleSlotSize + 4095) & ~4095` on a u32 value: round up to a multiple
of 4096 (the low 12 bits of `(s + 4095) mod 2^32` are cleared). -/
def alignPage (s : Nat) : Nat := ((s + 4095) % U32) / 4096 * 4096

/-- A slot as the zero-filled fresh segment presents it. -/
def zeroSlot : FSharedImageSlot :=
  { Width := 0, Height := 0, Timestamp := 0, ImageType := 0, DataSize := 0,
    PixelData := [] }

/-- `FSharedMemoryImageTransport::Initialize(NumSlots, MaxWidth, MaxHeight)`.
Already-initialized objects return `true` without touching anything.
Otherwise the slot size is `HeaderSize + MaxWidth*MaxHeight*3` (u32
arithmetic) aligned up to a page, the total size is
`sizeof(FSharedMemoryHeader) + SingleSlotSize*MaxSlots` plus the padding
`4096 - sizeof(FSharedMemoryHeader)`, the segment is created, zeroed and
mapped, the header is written (`WriteIndex = 0`, `LastUpdateTime = 0`), and
the write/read semaphores are created with initial counts `MaxSlots` / `0`. -/
def Initialize (st : TransportState) (NumSlots MaxWidth MaxHeight : Nat) :
    Bool × TransportState :=
  if st.bIsInitialized then (true, st)
  else
    let MaxSlots := NumSlots
    let SingleSlotSize :=
      alignPage ((FSharedImageSlot.HeaderSize + MaxWidth * MaxHeight % U32 * 3 % U32) % U32)
    let TotalSize :=
      sharedMemoryHeaderSize + SingleSlotSize * MaxSlots % U32 +
        (4096 - sharedMemoryHeaderSize)
    (true,
      { bIsInitialized := true
        headerPresent := true
        hdrMagic := MAGIC_NUMBER
        hdrNumSlots := MaxSlots
        hdrSlotSize := SingleSlotSize
        hdrWriteIndex := 0
        hdrLastUpdateTime := 0
        slots := List.replicate MaxSlots zeroSlot
        writeSem := MaxSlots
        readSem := 0
        writeSemValid := true
        readSemValid := true
        mapped := true
        fdOpen := true
        maxSlots := MaxSlots
        singleSlotSize := SingleSlotSize
        totalSize := TotalSize
        segmentsCreated := st.segmentsCreated + 1
        claimedLog := [] })

/-- `FSharedMemoryImageTransport::GetSlot(Index)`: `nullptr` iff
`Index >= MaxSlots`, otherwise the slot at `SlotDataStart + Index*SingleSlotSize`. -/
def GetSlot (st : TransportState) (Index : Nat) : Option FSharedImageSlot :=
  if Index ≥ st.maxSlots then none
  else st.slots.get? Index

/-- `FSharedMemoryImageTransport::GetNextWriteIndex()`: the CAS loop, which in
a single atomic step replaces `Header->WriteIndex` by
`(CurrentIndex + 1) % MaxSlots` and returns `CurrentIndex`.  The claimed
index is appended to the ghost log. -/
def GetNextWriteIndex (st : TransportState) : Nat × TransportState :=
  let CurrentIndex := st.hdrWriteIndex
  let NextIndex := (CurrentIndex + 1) % st.maxSlots
  (CurrentIndex,
    { st with hdrWriteIndex := NextIndex,
              claimedLog := st.claimedLog ++ [CurrentIndex] })

/-- `FSharedMemoryImageTransport::WriteImage(Width, Height, Timestamp,
ImageType, PixelData)`.  Returns the C++ boolean result together with the
post-state.  `RequiredSize = Width * Height * 3` is 32-bit unsigned
arithmetic.  The 5 ms `sem_timedwait` is modelled as failing exactly when no
write permit is available. -/
def WriteImage (st : TransportState) (Width Height Timestamp ImageType : Nat)
    (PixelData : List Nat) : Bool × TransportState :=
  if st.bIsInitialized = false ∨ st.headerPresent = false then (false, st)
  else if Width = 0 ∨ Height = 0 then (false, st)
  else
    let RequiredSize := Width * Height % U32 * 3 % U32
    if PixelData.length < RequiredSize then (false, st)
    else if st.writeSem = 0 then (false, st)
    else
      let st1 := { st with writeSem := st.writeSem - 1 }
      let claimed := GetNextWriteIndex st1
      let SlotIndex := claimed.1
      let st2 := claimed.2
      match GetSlot st2 SlotIndex with
      | none => (false, { st2 with writeSem := st2.writeSem + 1 })
      | some OldSlot =>
        let NewSlot : FSharedImageSlot :=
          { Width := Width, Height := Height, Timestamp := Timestamp,
            ImageType := ImageType, DataSize := RequiredSize,
            PixelData := PixelData.take RequiredSize ++
                           OldSlot.PixelData.drop RequiredSize }
        (true,
          { st2 with slots := st2.slots.set SlotIndex NewSlot,
                     hdrLastUpdateTime := Timestamp,
                     readSem := st2.readSem + 1 })

/-- `FSharedMemoryImageTransport::Shutdown()`: each handle is checked for
validity before release (`sem_close`/`sem_unlink`, `munmap` guarded by
`SharedMemoryPtr != MAP_FAILED && TotalSize > 0`, `close`/`shm_unlink`
guarded by `SharedMemoryFD >= 0`), then `bIsInitialized` is cleared.  The
`Header` pointer is not reset. -/
def Shutdown (st : TransportState) : TransportState :=
  let st1 := if st.writeSemValid then { st with writeSemValid := false } else st
  let st2 := if st1.readSemValid then { st1 with readSemValid := false } else st1
  let st3 := if st2.mapped ∧ 0 < st2.totalSize then { st2 with mapped := false } else st2
  let st4 := if st3.fdOpen then { st3 with fdOpen := false } else st3
  { st4 with bIsInitialized := false }

/-- Events driving a transport run: a producer `WriteImage` call, or the
environment releasing one write permit.  Modelled from the spec: the consumer
process (not part of this producer-side source) frees a write permit by a
`sem_post` on the write semaphore after it finishes reading a slot. -/
inductive TEvent where
  | write (Width Height Timestamp ImageType : Nat) (PixelData : List Nat)
  | consumerRelease
deriving Repr, DecidableEq

/-- One step of a run. -/
def stepEvent (st : TransportState) (e : TEvent) : TransportState :=
  match e with
  | .write w h t ty p => (WriteImage st w h t ty p).2
  | .consumerRelease => { st with writeSem := st.writeSem + 1 }

/-- Whether the event is a `WriteImage` call that returns `true` from `st`. -/
def writeSucceeds (st : TransportState) (e : TEvent) : Bool :=
  match e with
  | .write w h t ty p => (WriteImage st w h t ty p).1
  | .consumerRelease => false

/-- Run a sequence of events. -/
def run (st : TransportState) (es : List TEvent) : TransportState :=
  es.foldl stepEvent st

/-- Number of accepted (`true`-returning) `WriteImage` calls along a run. -/
def successCount : TransportState → List TEvent → Nat
  | _, [] => 0
  | st, e :: es =>
    (if writeSucceeds st e then 1 else 0) + successCount (stepEvent st e) es

/-! ## Async packing task (`ImagePackingAsyncTask.h`) -/

/-- An engine `FColor`: 8-bit channels, stored B,G,R,A in memory.  The fields
are the named channel accessors used by the packing loop. -/
structure FColor where
  B : Nat
  G : Nat
  R : Nat
  A : Nat
deriving Repr, DecidableEq

/-- An `FFloat16Color` sample as the packing task uses it: only the red
channel is read (`item.R.GetFloat()`).  The float value is carried as an
opaque token (no float arithmetic is performed on it). -/
structure FFloat16Color where
  R : Nat
deriving Repr, DecidableEq

/-- `RenderRequest::RenderParams` fields read by `DoWork`. -/
structure RenderParams where
  pixels_as_float : Bool
  compress : Bool
deriving Repr, DecidableEq

/-- `RenderRequest::RenderResult` fields read and written by `DoWork`.
`image_data_uint8` / `image_data_float` model the sequence of values the
task's pointer loop stores into the output buffer. -/
structure RenderResult where
  width : Nat
  height : Nat
  bmp : List FColor
  bmp_float : List FFloat16Color
  image_data_uint8 : List Nat
  image_data_float : List Nat
deriving Repr, DecidableEq

/-- The byte sequence written by the uncompressed loop: for each `item` of
`bmp`, `*ptr++ = item.B; *ptr++ = item.G; *ptr++ = item.R;`. -/
def bgrBytes : List FColor → List Nat
  | [] => []
  | c :: rest => c.B :: c.G :: c.R :: bgrBytes rest

/-- The float sequence written by the depth loop: for each `item` of
`bmp_float`, `*ptr++ = item.R.GetFloat();`. -/
def redFloats (l : List FFloat16Color) : List Nat :=
  l.map (fun c => c.R)

/-- One iteration of `FImagePackingAsyncTask::DoWork` over entry `i`:
`param = Params[i]`, `result = Results[i]`.  `comp` abstracts the external
`UAirBlueprintLib::CompressImageArray` collaborator (its output depends on
the width, height and source bitmap it is handed). -/
def packEntry (comp : Nat → Nat → List FColor → List Nat)
    (param : RenderParams) (result : RenderResult) : RenderResult :=
  if param.pixels_as_float = false then
    if result.width ≠ 0 ∧ result.height ≠ 0 then
      if param.compress then
        { result with image_data_uint8 := comp result.width result.height result.bmp }
      else
        { result with image_data_uint8 := bgrBytes result.bmp }
    else result
  else
    { result with image_data_float := redFloats result.bmp_float }

/-- `FImagePackingAsyncTask::DoWork`: iterates the batch, processing the
`i`-th params/results pair independently for every `i < ReqSize` (with
`ReqSize` = the common length of the two arrays). -/
def DoWork (comp : Nat → Nat → List FColor → List Nat)
    (Params : List RenderParams) (Results : List RenderResult) :
    List RenderResult :=
  List.zipWith (packEntry comp) Params Results

/-- Default entries for `getD`-style indexing in theorem statements. -/
def dfltParam : RenderParams := { pixels_as_float := false, compress := false }

def dfltResult : RenderResult :=
  { width := 0, height := 0, bmp := [], bmp_float := [],
    image_data_uint8 := [], image_data_float := [] }

def dfltSlot : FSharedImageSlot := zeroSlot

/-- The ring invariant tying the header write index to the ghost log of
claimed slot indices. -/
def InvC2 (sc : Nat) (st : TransportState) : Prop :=
  st.maxSlots = sc ∧ st.slots.length = sc ∧
  st.hdrWriteIndex = st.claimedLog.length % sc ∧
  st.claimedLog = (List.range st.claimedLog.length).map (fun j => j % sc)

/-- `Initialize(3, 1, 1)` applied to a fresh transport. -/
def st311 : TransportState := (Initialize initialState 3 1 1).2

/-- `Initialize(3, 64, 64)` applied to a fresh transport. -/
def st364 : TransportState := (Initialize initialState 3 64 64).2

/-- `Initialize(1, 1, 1)` applied to a fresh transport. -/
def st111 : TransportState := (Initialize initialState 1 1 1).2

/-- `Initialize(0, 64, 64)` applied to a fresh transport. -/
def st064 : TransportState := (Initialize initialState 0 64 64).2

/-- Round up to a multiple of 4096, as the spec's `ceil_to_4096`. -/
def ceil4096 (x : Nat) : Nat := (x + 4095) / 4096 * 4096

/-- A concrete stand-in for the external PNG compression collaborator. -/
def comp0 : Nat → Nat → List FColor → List Nat := fun _ _ _ => []

/-- Concrete event list exercising the ring: two accepted writes on a
2-slot transport, one dropped write, one consumer release, one more
accepted write. -/
def esW2 : List TEvent :=
  [.write 1 1 5 0 [1, 2, 3], .write 1 1 6 0 [4, 5, 6],
   .write 1 1 7 0 [7, 8, 9], .consumerRelease, .write 1 1 8 0 [1, 1, 1]]

/-- Concrete write-only event list: two writes on a 1-slot transport. -/
def esW1 : List TEvent :=
  [.write 1 1 5 0 [1, 2, 3], .write 1 1 6 0 [4, 5, 6]]

/-- Concrete single-entry batch for the packing task: one uncompressed
uint8 entry. -/
def psW8 : List RenderParams := [{ pixels_as_float := false, compress := false }]

def rsW8 : List RenderResult :=
  [{ width := 1, height := 1, bmp := [{ B := 3, G := 2, R := 1, A := 0 }],
     bmp_float := [], image_data_uint8 := [], image_data_float := [] }]

/-- Concrete two-entry batch: a zero-dimension uint8 entry followed by a
normal entry. -/
def psW9 : List RenderParams :=
  [{ pixels_as_float := false, compress := false },
   { pixels_as_float := false, compress := false }]

def rsW9 : List RenderResult :=
  [{ width := 0, height := 5, bmp := [{ B := 9, G := 9, R := 9, A := 9 }],
     bmp_float := [], image_data_uint8 := [], image_data_float := [] },
   { width := 1, height := 1, bmp := [{ B := 3, G := 2, R := 1, A := 0 }],
     bmp_float := [], image_data_uint8 := [], image_data_float := [] }]

/-- Concrete single-entry float batch: a zero-dimension depth entry with a
nonempty `bmp_float`. -/
def psF9 : List RenderParams := [{ pixels_as_float := true, compress := false }]

def rsF9 : List RenderResult :=
  [{ width := 0, height := 5, bmp := [], bmp_float := [{ R := 7 }],
     image_data_uint8 := [], image_data_float := [] }]

/-! ## Helper lemmas about the transport -/

theorem shutdown_bIsInitialized (st : TransportState) :
    (Shutdown st).bIsInitialized = false := by
  simp only [Shutdown]

theorem writeImage_not_init (st : TransportState) (w h t ty : Nat) (p : List Nat)
    (hni : st.bIsInitialized = false) :
    (WriteImage st w h t ty p).1 = false := by
  unfold WriteImage
  simp [hni]

/-- Any `WriteImage` call that fails validation (or arrives when no write
permit is available, or before initialization) returns `(false, st)`:
the state is returned untouched. -/
theorem writeImage_reject (st : TransportState) (w h t ty : Nat) (p : List Nat)
    (hrej : w = 0 ∨ h = 0 ∨ p.length < w * h % U32 * 3 % U32) :
    WriteImage st w h t ty p = (false, st) := by
  simp only [WriteImage]
  split_ifs with h1 h2 h3 h4 <;> first
  | rfl
  | (exfalso; rcases hrej with hx | hx | hx <;> simp_all <;> omega)

/-- The equation of the accepting branch of `WriteImage`. -/
theorem writeImage_accept_eq (st : TransportState) (w h t ty : Nat) (p : List Nat)
    (h1 : st.bIsInitialized = true) (h2 : st.headerPresent = true)
    (h3 : w ≠ 0) (h4 : h ≠ 0)
    (h5 : ¬ p.length < w * h % U32 * 3 % U32)
    (h6 : st.writeSem ≠ 0)
    (h7 : st.hdrWriteIndex < st.maxSlots)
    (h8 : st.hdrWriteIndex < st.slots.length) :
    WriteImage st w h t ty p =
      (true,
        { st with
            writeSem := st.writeSem - 1,
            hdrWriteIndex := (st.hdrWriteIndex + 1) % st.maxSlots,
            claimedLog := st.claimedLog ++ [st.hdrWriteIndex],
            slots := st.slots.set st.hdrWriteIndex
              { Width := w, Height := h, Timestamp := t, ImageType := ty,
                DataSize := w * h % U32 * 3 % U32,
                PixelData := p.take (w * h % U32 * 3 % U32) ++
                  (st.slots.get ⟨st.hdrWriteIndex, h8⟩).PixelData.drop
                    (w * h % U32 * 3 % U32) },
            hdrLastUpdateTime := t,
            readSem := st.readSem + 1 }) := by
  unfold WriteImage GetNextWriteIndex GetSlot
  rw [if_neg (by simp [h1, h2]), if_neg (by simp [h3, h4]), if_neg h5,
    if_neg h6]
  have hlt : ¬ st.hdrWriteIndex ≥ st.maxSlots := by omega
  simp only [hlt, if_neg, ite_false, if_false]
  rw [List.get?_eq_get h8]

/-- A `WriteImage` call consumes exactly one write permit when it succeeds
(and then a permit was available) and none when it fails. -/
theorem writeImage_writeSem (st : TransportState) (w h t ty : Nat) (p : List Nat) :
    ((WriteImage st w h t ty p).1 = true →
      st.writeSem ≠ 0 ∧ (WriteImage st w h t ty p).2.writeSem = st.writeSem - 1) ∧
    ((WriteImage st w h t ty p).1 = false →
      (WriteImage st w h t ty p).2.writeSem = st.writeSem) := by
  have hnorm : w * h % U32 * 3 % U32 = w * h * 3 % U32 := Nat.mod_mul_mod
  by_cases hc1 : st.bIsInitialized = false ∨ st.headerPresent = false
  · simp [WriteImage, hc1]
  · by_cases hc2 : w = 0 ∨ h = 0
    · simp [WriteImage, hc1, hc2]
    · by_cases hc3 : p.length < w * h * 3 % U32
      · simp [WriteImage, hc1, hc2, hnorm, hc3]
      · by_cases hc4 : st.writeSem = 0
        · simp [WriteImage, hc1, hc2, hnorm, hc3, hc4]
        · simp only [WriteImage, if_neg hc1, if_neg hc2,
            if_neg (show ¬ p.length < w * h % U32 * 3 % U32 by rw [hnorm]; exact hc3),
            if_neg hc4]
          split
          · simp [GetNextWriteIndex]
            omega
          · simp [GetNextWriteIndex, hc4]

/-- With no write permit available, every `WriteImage` call returns `false`
(either it fails validation, or the 5 ms `sem_timedwait` times out). -/
theorem writeImage_fail_of_no_permit (st : TransportState) (w h t ty : Nat)
    (p : List Nat) (hz : st.writeSem = 0) :
    (WriteImage st w h t ty p).1 = false := by
  rcases hsp : (WriteImage st w h t ty p).1 with _ | _
  · rfl
  · exact absurd hz ((writeImage_writeSem st w h t ty p).1 hsp).1

/-- Along a run containing no `consumerRelease` event, the write-permit count
decreases by exactly the number of accepted writes. -/
theorem run_writeSem_of_write_only (st : TransportState) (es : List TEvent)
    (hes : ∀ e ∈ es, e ≠ TEvent.consumerRelease) :
    (run st es).writeSem + successCount st es = st.writeSem := by
  induction es generalizing st with
  | nil => simp [run, successCount]
  | cons e es ih =>
    have he : e ≠ TEvent.consumerRelease := hes e (by simp)
    have hes' : ∀ e' ∈ es, e' ≠ TEvent.consumerRelease :=
      fun e' h' => hes e' (by simp [h'])
    cases e with
    | consumerRelease => exact absurd rfl he
    | write w h t ty p =>
      have hrec := ih (stepEvent st (.write w h t ty p)) hes'
      have hws := writeImage_writeSem st w h t ty p
      show (run (stepEvent st (.write w h t ty p)) es).writeSem +
          ((if writeSucceeds st (.write w h t ty p) then 1 else 0) +
            successCount (stepEvent st (.write w h t ty p)) es) = st.writeSem
      rcases hsp : (WriteImage st w h t ty p).1 with _ | _
      · have h0 := hws.2 hsp
        simp [writeSucceeds, hsp, stepEvent] at hrec ⊢
        omega
      · have h1 := hws.1 hsp
        simp [writeSucceeds, hsp, stepEvent] at hrec ⊢
        omega

/-- One event preserves the ring invariant, and the claimed log grows by one
entry exactly when the event is an accepted write. -/
theorem stepEvent_invC2 (sc : Nat) (hsc : 1 ≤ sc) (st : TransportState)
    (e : TEvent) (hinv : InvC2 sc st) :
    InvC2 sc (stepEvent st e) ∧
    (stepEvent st e).claimedLog.length =
      st.claimedLog.length + (if writeSucceeds st e then 1 else 0) := by
  obtain ⟨hms, hsl, hwi, hlog⟩ := hinv
  cases e with
  | consumerRelease =>
    exact ⟨⟨hms, hsl, hwi, hlog⟩, by simp [stepEvent, writeSucceeds]⟩
  | write w h t ty p =>
    simp only [stepEvent, writeSucceeds]
    by_cases hc1 : st.bIsInitialized = false ∨ st.headerPresent = false
    · have hrw : WriteImage st w h t ty p = (false, st) := by
        simp [WriteImage, hc1]
      simp only [hrw]
      exact ⟨⟨hms, hsl, hwi, hlog⟩, by simp⟩
    · by_cases hc2 : w = 0 ∨ h = 0
      · have hrw := writeImage_reject st w h t ty p (by tauto)
        simp only [hrw]
        exact ⟨⟨hms, hsl, hwi, hlog⟩, by simp⟩
      · by_cases hc3 : p.length < w * h % U32 * 3 % U32
        · have hrw := writeImage_reject st w h t ty p (Or.inr (Or.inr hc3))
          simp only [hrw]
          exact ⟨⟨hms, hsl, hwi, hlog⟩, by simp⟩
        · by_cases hc4 : st.writeSem = 0
          · have hrw : WriteImage st w h t ty p = (false, st) := by
              simp only [WriteImage, if_neg hc1, if_neg hc2, if_neg hc3,
                if_pos hc4]
            simp only [hrw]
            exact ⟨⟨hms, hsl, hwi, hlog⟩, by simp⟩
          · have hidx : st.hdrWriteIndex < st.maxSlots := by
              rw [hwi, hms]; exact Nat.mod_lt _ (by omega)
            have hidx' : st.hdrWriteIndex < st.slots.length := by
              rw [hsl, ← hms]; exact hidx
            have hc2' : w ≠ 0 ∧ h ≠ 0 := by tauto
            simp only [writeImage_accept_eq st w h t ty p
              (by revert hc1; cases st.bIsInitialized <;> simp)
              (by revert hc1; cases st.headerPresent <;> simp)
              hc2'.1 hc2'.2 hc3 hc4 hidx hidx']
            refine ⟨⟨by simpa using hms, by simpa using hsl, ?_, ?_⟩, by simp⟩
            · simp only [List.length_append, List.length_singleton, hwi, hms]
              rw [Nat.mod_add_mod]
            · simp only [List.length_append, List.length_singleton]
              rw [List.range_succ, List.map_append]
              simp only [List.map_cons, List.map_nil]
              rw [← hlog, hwi]

/-- The ring invariant holds along every run, and the claimed log length
equals the number of accepted writes. -/
theorem run_invC2 (sc : Nat) (hsc : 1 ≤ sc) (st : TransportState)
    (es : List TEvent) (hinv : InvC2 sc st) :
    InvC2 sc (run st es) ∧
    (run st es).claimedLog.length = st.claimedLog.length + successCount st es := by
  induction es generalizing st with
  | nil =>
    exact ⟨hinv, by simp [run, successCount]⟩
  | cons e es ih =>
    have hstep := stepEvent_invC2 sc hsc st e hinv
    have hrec := ih (stepEvent st e) hstep.1
    refine ⟨by simpa [run] using hrec.1, ?_⟩
    show (run (stepEvent st e) es).claimedLog.length = _
    rw [hrec.2, hstep.2]
    cases hw : writeSucceeds st e <;> simp [successCount, hw] <;> omega

/-- Indexing a `zipWith` at a position inside both lists. -/
theorem zipWith_getD {α β γ : Type} (f : α → β → γ) (as : List α) (bs : List β)
    (i : Nat) (ha : i < as.length) (hb : i < bs.length) (d : γ) (da : α) (db : β) :
    (List.zipWith f as bs).getD i d = f (as.getD i da) (bs.getD i db) := by
  induction as generalizing bs i with
  | nil => simp at ha
  | cons a as ih =>
    cases bs with
    | nil => simp at hb
    | cons b bs =>
      cases i with
      | zero => simp [List.zipWith]
      | succ n =>
        simp only [List.zipWith, List.getD_cons_succ]
        exact ih bs n (by simpa using ha) (by simpa using hb)

/-- A successful `WriteImage` necessarily took the accepting branch: no
validation check failed, a permit was available, and the claimed index was in
range. -/
theorem writeImage_success_branch (st : TransportState) (w h t ty : Nat)
    (p : List Nat) (hslots : st.slots.length = st.maxSlots)
    (hsucc : (WriteImage st w h t ty p).1 = true) :
    st.bIsInitialized = true ∧ st.headerPresent = true ∧
    w ≠ 0 ∧ h ≠ 0 ∧ ¬ p.length < w * h % U32 * 3 % U32 ∧
    st.writeSem ≠ 0 ∧ st.hdrWriteIndex < st.maxSlots := by
  by_cases hc1 : st.bIsInitialized = false ∨ st.headerPresent = false
  · exfalso
    have : (WriteImage st w h t ty p).1 = false := by simp [WriteImage, hc1]
    simp [this] at hsucc
  · by_cases hc2 : w = 0 ∨ h = 0
    · exfalso
      have := writeImage_reject st w h t ty p (by tauto)
      simp [this] at hsucc
    · by_cases hc3 : p.length < w * h % U32 * 3 % U32
      · exfalso
        have := writeImage_reject st w h t ty p (Or.inr (Or.inr hc3))
        simp [this] at hsucc
      · by_cases hc4 : st.writeSem = 0
        · exact absurd (writeImage_fail_of_no_permit st w h t ty p hc4)
            (by simp [hsucc])
        · by_cases hidx : st.hdrWriteIndex < st.maxSlots
          · refine ⟨?_, ?_, ?_, ?_, hc3, hc4, hidx⟩
            · revert hc1; cases st.bIsInitialized <;> simp
            · revert hc1; cases st.headerPresent <;> simp
            · tauto
            · tauto
          · exfalso
            have : (WriteImage st w h t ty p).1 = false := by
              simp only [WriteImage, if_neg hc1, if_neg hc2, if_neg hc3,
                if_neg hc4]
              have hge : (GetNextWriteIndex
                  { st with writeSem := st.writeSem - 1 }).1 ≥
                  (GetNextWriteIndex
                    { st with writeSem := st.writeSem - 1 }).2.maxSlots := by
                simp [GetNextWriteIndex]; omega
              rw [show GetSlot (GetNextWriteIndex
                  { st with writeSem := st.writeSem - 1 }).2
                  (GetNextWriteIndex
                    { st with writeSem := st.writeSem - 1 }).1 = none from
                if_pos hge]
            simp [this] at hsucc

/-- **C1.** For every initialized transport and every input with `width > 0`,
`height > 0` and `len(pixels) = width*height*3` (with, as for any real
`TArray`, a length below `2^32`), a successful
`WriteImage(width, height, timestamp, imageType, pixels)` stores into the
claimed slot (the pre-call `writeIndex`) exactly `Width = width`,
`Height = height`, `Timestamp = timestamp`, `ImageType = imageType`,
`DataSize = width*height*3`, copies the pixel bytes byte-identically into the
slot's `PixelData`, sets the header's `LastUpdateTime` to `timestamp`, posts
the read-ready semaphore exactly once, and consumes exactly one write
permit. -/
theorem claim_C1_write_roundtrip (st : TransportState) (w h t ty : Nat)
    (p : List Nat)
    (hslots : st.slots.length = st.maxSlots)
    (hlen : p.length = w * h * 3)
    (hsz : p.length < U32)
    (hsucc : (WriteImage st w h t ty p).1 = true) :
    ∃ slot : FSharedImageSlot,
      (WriteImage st w h t ty p).2.slots.get? st.hdrWriteIndex = some slot ∧
      slot.Width = w ∧ slot.Height = h ∧ slot.Timestamp = t ∧
      slot.ImageType = ty ∧ slot.DataSize = w * h * 3 ∧
      slot.PixelData.take (w * h * 3) = p ∧
      (WriteImage st w h t ty p).2.hdrLastUpdateTime = t ∧
      (WriteImage st w h t ty p).2.readSem = st.readSem + 1 ∧
      st.writeSem ≠ 0 ∧
      (WriteImage st w h t ty p).2.writeSem = st.writeSem - 1 := by
  obtain ⟨hb1, hb2, hw, hh, hc3, hc4, hidx⟩ :=
    writeImage_success_branch st w h t ty p hslots hsucc
  have hidx' : st.hdrWriteIndex < st.slots.length := by omega
  have hreq : w * h % U32 * 3 % U32 = w * h * 3 := by
    rw [Nat.mod_mul_mod]
    exact Nat.mod_eq_of_lt (hlen ▸ hsz)
  have heq := writeImage_accept_eq st w h t ty p hb1 hb2 hw hh hc3 hc4 hidx hidx'
  rw [heq]
  refine ⟨{ Width := w, Height := h, Timestamp := t, ImageType := ty,
            DataSize := w * h % U32 * 3 % U32,
            PixelData := p.take (w * h % U32 * 3 % U32) ++
                         (st.slots.get ⟨st.hdrWriteIndex, hidx'⟩).PixelData.drop
                           (w * h % U32 * 3 % U32) },
    ?_, rfl, rfl, rfl, rfl, hreq, ?_, rfl, rfl, hc4, rfl⟩
  · show (st.slots.set st.hdrWriteIndex _).get? st.hdrWriteIndex = _
    simp only [List.get?_eq_getElem?]
    rw [List.getElem?_set_self (by simpa using hidx')]
  · show (p.take (w * h % U32 * 3 % U32) ++ _).take (w * h * 3) = p
    rw [hreq, ← hlen, List.take_length, List.take_left]

/-- **C10.** For every initialized transport and every input with
`width > 0`, `height > 0` and `len(pixels)` strictly greater than
`width*height*3`, a successful `WriteImage` copies only the first
`width*height*3` bytes of the supplied pixel buffer into the slot and sets
the slot's `DataSize` to `width*height*3` (not to the buffer's length); the
excess bytes are ignored. -/
theorem claim_C10_excess_bytes_ignored (st : TransportState) (w h t ty : Nat)
    (p : List Nat)
    (hslots : st.slots.length = st.maxSlots)
    (hgt : w * h * 3 < p.length)
    (hsz : p.length < U32)
    (hsucc : (WriteImage st w h t ty p).1 = true) :
    ∃ slot : FSharedImageSlot,
      (WriteImage st w h t ty p).2.slots.get? st.hdrWriteIndex = some slot ∧
      slot.DataSize = w * h * 3 ∧
      slot.DataSize ≠ p.length ∧
      slot.PixelData.take (w * h * 3) = p.take (w * h * 3) := by
  obtain ⟨hb1, hb2, hw, hh, hc3, hc4, hidx⟩ :=
    writeImage_success_branch st w h t ty p hslots hsucc
  have hidx' : st.hdrWriteIndex < st.slots.length := by omega
  have hreq : w * h % U32 * 3 % U32 = w * h * 3 := by
    rw [Nat.mod_mul_mod]
    exact Nat.mod_eq_of_lt (by omega)
  have heq := writeImage_accept_eq st w h t ty p hb1 hb2 hw hh hc3 hc4 hidx hidx'
  rw [heq]
  refine ⟨{ Width := w, Height := h, Timestamp := t, ImageType := ty,
            DataSize := w * h % U32 * 3 % U32,
            PixelData := p.take (w * h % U32 * 3 % U32) ++
                         (st.slots.get ⟨st.hdrWriteIndex, hidx'⟩).PixelData.drop
                           (w * h % U32 * 3 % U32) },
    ?_, hreq, ?_, ?_⟩
  · show (st.slots.set st.hdrWriteIndex _).get? st.hdrWriteIndex = _
    simp only [List.get?_eq_getElem?]
    rw [List.getElem?_set_self (by simpa using hidx')]
  · show w * h % U32 * 3 % U32 ≠ p.length
    rw [hreq]; omega
  · show (p.take (w * h % U32 * 3 % U32) ++ _).take (w * h * 3) = p.take (w * h * 3)
    rw [hreq]
    exact List.take_left' (by simp [List.length_take]; omega)

/-- Witness for C1: `WriteImage(1, 1, 5, 0, [10,11,12])` on a fresh
3-slot transport. -/
theorem claim_C1_witness :
    ∃ slot : FSharedImageSlot,
      (WriteImage st311 1 1 5 0 [10, 11, 12]).2.slots.get? st311.hdrWriteIndex =
        some slot ∧
      slot.Width = 1 ∧ slot.Height = 1 ∧ slot.Timestamp = 5 ∧
      slot.ImageType = 0 ∧ slot.DataSize = 1 * 1 * 3 ∧
      slot.PixelData.take (1 * 1 * 3) = [10, 11, 12] ∧
      (WriteImage st311 1 1 5 0 [10, 11, 12]).2.hdrLastUpdateTime = 5 ∧
      (WriteImage st311 1 1 5 0 [10, 11, 12]).2.readSem = st311.readSem + 1 ∧
      st311.writeSem ≠ 0 ∧
      (WriteImage st311 1 1 5 0 [10, 11, 12]).2.writeSem = st311.writeSem - 1 :=
  claim_C1_write_roundtrip st311 1 1 5 0 [10, 11, 12]
    (by decide) (by decide) (by decide) (by decide)

/-- Witness for C10: a 4-byte buffer for a 1x1 frame; only 3 bytes land in
the slot and `DataSize = 3 ≠ 4`. -/
theorem claim_C10_witness :
    ∃ slot : FSharedImageSlot,
      (WriteImage st311 1 1 5 0 [10, 11, 12, 99]).2.slots.get?
        st311.hdrWriteIndex = some slot ∧
      slot.DataSize = 1 * 1 * 3 ∧
      slot.DataSize ≠ ([10, 11, 12, 99] : List Nat).length ∧
      slot.PixelData.take (1 * 1 * 3) = ([10, 11, 12, 99] : List Nat).take (1 * 1 * 3) :=
  claim_C10_excess_bytes_ignored st311 1 1 5 0 [10, 11, 12, 99]
    (by decide) (by decide) (by decide) (by decide)

/-- Counterexample to C4 as stated: with `width = height = 65536` the 32-bit
product `width*height*3` wraps to 0, so `WriteImage(65536, 65536, 5, 0, [])`
is accepted (returns `true` and mutates state) even though
`len(pixels) = 0 < width*height*3`. -/
theorem claim_C4_counterexample :
    (List.length ([] : List Nat)) < 65536 * 65536 * 3 ∧
    (WriteImage st364 65536 65536 5 0 []).1 = true ∧
    (WriteImage st364 65536 65536 5 0 []).2 ≠ st364 := by
  refine ⟨by decide, by decide, by decide⟩

/-- **C4 (amended: the undersized-buffer comparison uses the code's 32-bit
`width*height*3`).** `WriteImage` returns `false` and mutates no state
(`writeIndex` unchanged, no semaphore count changed, no slot bytes written,
caller's buffer unaffected) whenever `width = 0`, or `height = 0`, or
`len(pixels) < width*height*3` computed in 32-bit unsigned arithmetic; in
particular `writeImage(0, 10, ...)`, `writeImage(10, 0, ...)` and
`writeImage(10, 10, t, ty, pixels)` with `len(pixels) < 300` each return
`false` and leave the state untouched. -/
theorem claim_C4_validation_rejection (st : TransportState) (w h t ty : Nat)
    (p : List Nat)
    (hrej : w = 0 ∨ h = 0 ∨ p.length < w * h % U32 * 3 % U32) :
    WriteImage st w h t ty p = (false, st) :=
  writeImage_reject st w h t ty p hrej

/-- Witness for the amended C4: the three concrete rejections of the claim. -/
theorem claim_C4_witness :
    WriteImage st364 0 10 1 2 (List.replicate 300 7) = (false, st364) ∧
    WriteImage st364 10 0 1 2 (List.replicate 300 7) = (false, st364) ∧
    WriteImage st364 10 10 1 2 (List.replicate 299 7) = (false, st364) :=
  ⟨claim_C4_validation_rejection st364 0 10 1 2 (List.replicate 300 7)
      (Or.inl rfl),
   claim_C4_validation_rejection st364 10 0 1 2 (List.replicate 300 7)
      (Or.inr (Or.inl rfl)),
   claim_C4_validation_rejection st364 10 10 1 2 (List.replicate 299 7)
      (Or.inr (Or.inr (by rw [List.length_replicate]; decide)))⟩

/-- **C3 (code bug).** `WriteImage` never compares `width*height*3` against
the slot capacity `slotSize - subHeaderSize` fixed by `Initialize`; an
oversized frame is accepted, not rejected.  On a transport initialized with
`Initialize(1, 1, 1)` (slot size 4096, capacity 4096 - 24 = 4072 bytes),
`WriteImage(40, 40, 7, 0, <4800 bytes>)` returns `true` and stores
`DataSize = 4800 > 4072`: the memcpy of 4800 bytes overruns the 4096-byte
slot. -/
theorem claim_C3_no_capacity_check :
    st111.singleSlotSize - FSharedImageSlot.HeaderSize = 4072 ∧
    (40 * 40 * 3 : Nat) = 4800 ∧
    ¬ (40 * 40 * 3 : Nat) ≤ st111.singleSlotSize - FSharedImageSlot.HeaderSize ∧
    (WriteImage st111 40 40 7 0 (List.replicate 4800 1)).1 = true ∧
    ((WriteImage st111 40 40 7 0 (List.replicate 4800 1)).2.slots.getD 0
      dfltSlot).DataSize = 4800 := by
  have heq := writeImage_accept_eq st111 40 40 7 0 (List.replicate 4800 1)
    (by decide) (by decide) (by decide) (by decide)
    (by rw [List.length_replicate]; decide) (by decide) (by decide) (by decide)
  refine ⟨by decide, by decide, by decide, ?_, ?_⟩
  · rw [heq]
  · rw [heq]
    show ((st111.slots.set 0 _).getD 0 dfltSlot).DataSize = 4800
    rw [List.getD_eq_getElem?_getD]
    rw [List.getElem?_set_self (by decide)]
    rfl

/-- Counterexample to C2 as stated: `Initialize(0, 64, 64)` succeeds and
writes `writeIndex = 0` with `slotCount = 0`, so `0 ≤ writeIndex < slotCount`
fails on the freshly initialized header. -/
theorem claim_C2_counterexample :
    (Initialize initialState 0 64 64).1 = true ∧
    st064.hdrWriteIndex = 0 ∧
    st064.hdrNumSlots = 0 ∧
    ¬ st064.hdrWriteIndex < st064.hdrNumSlots := by decide

/-- **C2 (amended: `slotCount ≥ 1`).** For every transport freshly
initialized with `slotCount ≥ 1` and every sequence of events (producer
`WriteImage` calls with arbitrary arguments, interleaved with consumer
permit releases), the header's `writeIndex` always stays in
`[0, slotCount)`, every slot claim replaces it by `(current + 1) mod
slotCount`, and the sequence of slot indices claimed over the `k` accepted
writes is `0, 1, ..., slotCount-1, 0, 1, ...` — the claimed-index log equals
`[0 % sc, 1 % sc, ..., (k-1) % sc]` and the final `writeIndex` is
`k mod slotCount`: indices advance by exactly 1 mod `slotCount` per accepted
write, with no value skipped or repeated within a cycle. -/
theorem claim_C2_ring_sequence (sc mw mh : Nat) (hsc : 1 ≤ sc)
    (es : List TEvent) :
    (run (Initialize initialState sc mw mh).2 es).hdrWriteIndex < sc ∧
    (run (Initialize initialState sc mw mh).2 es).claimedLog =
      (List.range (successCount (Initialize initialState sc mw mh).2 es)).map
        (fun j => j % sc) ∧
    (run (Initialize initialState sc mw mh).2 es).hdrWriteIndex =
      successCount (Initialize initialState sc mw mh).2 es % sc := by
  have hinv0 : InvC2 sc (Initialize initialState sc mw mh).2 := by
    refine ⟨rfl, ?_, ?_, ?_⟩
    · show (List.replicate sc zeroSlot).length = sc
      simp
    · show (0 : Nat) = ([] : List Nat).length % sc
      simp
    · show ([] : List Nat) =
        (List.range ([] : List Nat).length).map (fun j => j % sc)
      simp
  obtain ⟨⟨hms, hsl, hwi, hlog⟩, hcount⟩ :=
    run_invC2 sc hsc (Initialize initialState sc mw mh).2 es hinv0
  have hlog0 : (Initialize initialState sc mw mh).2.claimedLog = [] := rfl
  rw [hlog0] at hcount
  simp only [List.length_nil, Nat.zero_add] at hcount
  refine ⟨?_, ?_, ?_⟩
  · rw [hwi]
    exact Nat.mod_lt _ (by omega)
  · rw [hlog, hcount]
  · rw [hwi, hcount]

/-- Witness for the amended C2: a 2-slot transport driven through three
writes, a permit release, and one more write; the claimed indices are
`[0, 1, 0]` for the three accepted writes. -/
theorem claim_C2_witness :
    (run (Initialize initialState 2 1 1).2 esW2).hdrWriteIndex < 2 ∧
    (run (Initialize initialState 2 1 1).2 esW2).claimedLog =
      (List.range (successCount (Initialize initialState 2 1 1).2 esW2)).map
        (fun j => j % 2) ∧
    (run (Initialize initialState 2 1 1).2 esW2).hdrWriteIndex =
      successCount (Initialize initialState 2 1 1).2 esW2 % 2 :=
  claim_C2_ring_sequence 2 1 1 (by decide) esW2

/-- **C5.** If the consumer never posts a write permit, then starting from a
fresh `Initialize(slotCount, maxWidth, maxHeight)` at most `slotCount`
`WriteImage` calls succeed (each accepted write consumes one permit of the
write semaphore that `Initialize` created with initial value `slotCount`),
and once `slotCount` writes have been accepted every subsequent `WriteImage`
call returns `false` (its bounded 5 ms semaphore wait fails; it never blocks
indefinitely). -/
theorem claim_C5_backpressure (sc mw mh : Nat) (es : List TEvent)
    (hes : ∀ e ∈ es, e ≠ TEvent.consumerRelease) :
    successCount (Initialize initialState sc mw mh).2 es ≤ sc ∧
    (successCount (Initialize initialState sc mw mh).2 es = sc →
      ∀ w h t ty p,
        (WriteImage (run (Initialize initialState sc mw mh).2 es)
          w h t ty p).1 = false) := by
  have hsem0 : (Initialize initialState sc mw mh).2.writeSem = sc := rfl
  have hacc :=
    run_writeSem_of_write_only (Initialize initialState sc mw mh).2 es hes
  rw [hsem0] at hacc
  exact ⟨by omega,
    fun hfull w h t ty p =>
      writeImage_fail_of_no_permit _ w h t ty p (by omega)⟩

/-- Witness for C5: a 1-slot transport with two writes and no consumer; only
one write succeeds and with the permit gone every further call fails. -/
theorem claim_C5_witness :
    successCount (Initialize initialState 1 1 1).2 esW1 ≤ 1 ∧
    (successCount (Initialize initialState 1 1 1).2 esW1 = 1 →
      ∀ w h t ty p,
        (WriteImage (run (Initialize initialState 1 1 1).2 esW1)
          w h t ty p).1 = false) :=
  claim_C5_backpressure 1 1 1 esW1 (by decide)

/-- **C6.** The lifecycle operations are idempotent and order-safe: calling
`Initialize` while already initialized returns `true` as a no-op without
creating a second segment (the whole state, including the ghost count of
`shm_open` create calls, is unchanged); calling `Shutdown` twice, or before
`Initialize`, is a safe no-op (each handle is checked for validity before
release); and `WriteImage` called after `Shutdown` (or before `Initialize`)
returns `false`. -/
theorem claim_C6_lifecycle :
    (∀ (st : TransportState) (n mw mh : Nat), st.bIsInitialized = true →
      Initialize st n mw mh = (true, st)) ∧
    (∀ st : TransportState, Shutdown (Shutdown st) = Shutdown st) ∧
    Shutdown initialState = initialState ∧
    (∀ (st : TransportState) (w h t ty : Nat) (p : List Nat),
      (WriteImage (Shutdown st) w h t ty p).1 = false) ∧
    (∀ (w h t ty : Nat) (p : List Nat),
      (WriteImage initialState w h t ty p).1 = false) := by
  refine ⟨?_, ?_, ?_, ?_, ?_⟩
  · intro st n mw mh hinit
    simp [Initialize, hinit]
  · intro st
    obtain ⟨b, hp, m1, m2, m3, wi, lu, sl, ws, rs, wsv, rsv, mp, fd, ms, sss,
      ts, sg, cl⟩ := st
    by_cases hts : 0 < ts <;>
      cases wsv <;> cases rsv <;> cases mp <;> cases fd <;>
        simp [Shutdown, hts]
  · rfl
  · intro st w h t ty p
    exact writeImage_not_init (Shutdown st) w h t ty p
      (shutdown_bIsInitialized st)
  · intro w h t ty p
    exact writeImage_not_init initialState w h t ty p rfl

/-- Witness for C6: a second `Initialize` on an already-initialized transport
is the identity. -/
theorem claim_C6_witness :
    Initialize st364 5 9 9 = (true, st364) :=
  claim_C6_lifecycle.1 st364 5 9 9 (by decide)

/-- Counterexample to C7 as stated: the code computes
`MaxWidth * MaxHeight * 3` in 32-bit unsigned arithmetic, so at
`Initialize(1, 65536, 65536)` the product wraps to 0 and the slot size is
4096, not `ceil_to_4096(subHeaderSize + 65536*65536*3) = 12884905984` as the
claim's formula requires. -/
theorem claim_C7_counterexample :
    (Initialize initialState 1 65536 65536).1 = true ∧
    (Initialize initialState 1 65536 65536).2.singleSlotSize = 4096 ∧
    ceil4096 (FSharedImageSlot.HeaderSize + 65536 * 65536 * 3) =
      12884905984 ∧
    (4096 : Nat) ≠ 12884905984 := by decide

/-- **C7 (amended: sizes that do not overflow 32-bit unsigned arithmetic).**
For every successful `Initialize(slotCount, maxWidth, maxHeight)` whose size
computations do not overflow 32 bits (`subHeaderSize + maxWidth*maxHeight*3
+ 4095 < 2^32` and `slotSize*slotCount < 2^32`), the per-slot size equals
the slot sub-header size plus `maxWidth*maxHeight*3` rounded up to a multiple
of 4096, and the total segment size equals 4096 (the padded header page) plus
`slotCount` times that slot size; in particular `initialize(3, 64, 64)`
yields a segment size of `4096 + 3 * ceil_to_4096(20 + 64*64*3)` bytes
(= 53248). -/
theorem claim_C7_segment_size (n mw mh : Nat)
    (hov : FSharedImageSlot.HeaderSize + mw * mh * 3 + 4095 < U32)
    (hn : ceil4096 (FSharedImageSlot.HeaderSize + mw * mh * 3) * n < U32) :
    (Initialize initialState n mw mh).2.singleSlotSize =
      ceil4096 (FSharedImageSlot.HeaderSize + mw * mh * 3) ∧
    (Initialize initialState n mw mh).2.totalSize =
      4096 + n * (Initialize initialState n mw mh).2.singleSlotSize ∧
    (Initialize initialState 3 64 64).2.totalSize =
      4096 + 3 * ceil4096 (20 + 64 * 64 * 3) ∧
    4096 + 3 * ceil4096 (20 + 64 * 64 * 3) = 53248 := by
  have hhs : FSharedImageSlot.HeaderSize = 24 := by decide
  rw [hhs] at hov hn ⊢
  have hwh3 : mw * mh * 3 < U32 := by omega
  have hwh : mw * mh < U32 := by
    have h3 : mw * mh ≤ mw * mh * 3 := Nat.le_mul_of_pos_right _ (by omega)
    omega
  have hslot : (Initialize initialState n mw mh).2.singleSlotSize =
      ceil4096 (24 + mw * mh * 3) := by
    simp only [Initialize, initialState, Bool.false_eq_true, if_false,
      alignPage, ceil4096, FSharedImageSlot.HeaderSize]
    rw [Nat.mod_eq_of_lt hwh, Nat.mod_eq_of_lt hwh3,
      Nat.mod_eq_of_lt (show 4 + 4 + 8 + 4 + 4 + mw * mh * 3 < U32 by omega),
      Nat.mod_eq_of_lt (show 4 + 4 + 8 + 4 + 4 + mw * mh * 3 + 4095 < U32 by
        omega)]
  refine ⟨hslot, ?_, by decide, by decide⟩
  rw [hslot]
  simp only [Initialize, initialState, Bool.false_eq_true, if_false]
  have hss : alignPage ((FSharedImageSlot.HeaderSize +
      mw * mh % U32 * 3 % U32) % U32) = ceil4096 (24 + mw * mh * 3) := by
    have := hslot
    simp only [Initialize, initialState, Bool.false_eq_true, if_false] at this
    exact this
  rw [hss, Nat.mod_eq_of_lt hn]
  simp [sharedMemoryHeaderSize, Nat.mul_comm]
  omega

/-- Witness for C7 at `initialize(3, 64, 64)`. -/
theorem claim_C7_witness :
    (Initialize initialState 3 64 64).2.singleSlotSize =
      ceil4096 (FSharedImageSlot.HeaderSize + 64 * 64 * 3) ∧
    (Initialize initialState 3 64 64).2.totalSize =
      4096 + 3 * (Initialize initialState 3 64 64).2.singleSlotSize ∧
    (Initialize initialState 3 64 64).2.totalSize =
      4096 + 3 * ceil4096 (20 + 64 * 64 * 3) ∧
    4096 + 3 * ceil4096 (20 + 64 * 64 * 3) = 53248 :=
  claim_C7_segment_size 3 64 64 (by decide) (by decide)

/-- Indexing `DoWork`: the `i`-th output is `packEntry` of the `i`-th
params/result pair. -/
theorem doWork_getD (comp : Nat → Nat → List FColor → List Nat)
    (ps : List RenderParams) (rs : List RenderResult) (i : Nat)
    (hip : i < ps.length) (hir : i < rs.length) :
    (DoWork comp ps rs).getD i dfltResult =
      packEntry comp (ps.getD i dfltParam) (rs.getD i dfltResult) := by
  simp only [DoWork]
  exact zipWith_getD (packEntry comp) ps rs i hip hir dfltResult dfltParam
    dfltResult

/-- `bgrBytes` writes exactly 3 bytes per source pixel. -/
theorem bgrBytes_length (l : List FColor) :
    (bgrBytes l).length = 3 * l.length := by
  induction l with
  | nil => simp [bgrBytes]
  | cons c rest ih =>
    simp only [bgrBytes, List.length_cons, ih]
    omega

/-- Counterexample to C8 as stated: for the source pixel with R=1, G=2, B=3
the task emits `[3, 2, 1]` — the blue byte first — not `[1, 2, 3]` (red byte
first) as the claim requires. -/
theorem claim_C8_counterexample :
    (rsW8.getD 0 dfltResult).bmp = [{ B := 3, G := 2, R := 1, A := 0 }] ∧
    ((DoWork comp0 psW8 rsW8).getD 0 dfltResult).image_data_uint8 =
      [3, 2, 1] ∧
    ([3, 2, 1] : List Nat) ≠ [1, 2, 3] := by decide

/-- **C8 (amended: B,G,R order).** For every batch entry processed by the
packing task's `DoWork` whose pixels are not floating-point and for which
compression was not requested (and whose width and height are nonzero), the
output buffer receives exactly 3 bytes per source pixel in B, G, R order
(blue byte first) taken from the BGRA-in-memory source. -/
theorem claim_C8_bgr_order (comp : Nat → Nat → List FColor → List Nat)
    (ps : List RenderParams) (rs : List RenderResult) (i : Nat)
    (hip : i < ps.length) (hir : i < rs.length)
    (hf : (ps.getD i dfltParam).pixels_as_float = false)
    (hc : (ps.getD i dfltParam).compress = false)
    (hw : (rs.getD i dfltResult).width ≠ 0)
    (hh : (rs.getD i dfltResult).height ≠ 0) :
    ((DoWork comp ps rs).getD i dfltResult).image_data_uint8 =
      bgrBytes (rs.getD i dfltResult).bmp ∧
    ((DoWork comp ps rs).getD i dfltResult).image_data_uint8.length =
      3 * (rs.getD i dfltResult).bmp.length := by
  rw [doWork_getD comp ps rs i hip hir]
  simp only [packEntry]
  rw [if_pos hf, if_pos ⟨hw, hh⟩, if_neg (by rw [hc]; simp)]
  exact ⟨rfl, bgrBytes_length _⟩

/-- Witness for the amended C8 on the one-pixel batch. -/
theorem claim_C8_witness :
    ((DoWork comp0 psW8 rsW8).getD 0 dfltResult).image_data_uint8 =
      bgrBytes (rsW8.getD 0 dfltResult).bmp ∧
    ((DoWork comp0 psW8 rsW8).getD 0 dfltResult).image_data_uint8.length =
      3 * (rsW8.getD 0 dfltResult).bmp.length :=
  claim_C8_bgr_order comp0 psW8 rsW8 0 (by decide) (by decide) (by decide)
    (by decide) (by decide) (by decide)

/-- Counterexample to C9 as stated: a floating-point depth entry with
`width = 0` is not skipped — the loop writes the `bmp_float` red channels
into the entry's output buffer (`image_data_float` goes from `[]` to
`[7]`). -/
theorem claim_C9_counterexample :
    (rsF9.getD 0 dfltResult).width = 0 ∧
    (rsF9.getD 0 dfltResult).image_data_float = [] ∧
    ((DoWork comp0 psF9 rsF9).getD 0 dfltResult).image_data_float = [7] ∧
    ([7] : List Nat) ≠ [] := by decide

/-- **C9 (amended: entries whose pixels are not floating-point).** For every
batch entry whose pixels are not floating-point and whose width or height is
zero, the packing task's `DoWork` skips that entry silently — its result
object is unchanged, no allocation is performed and nothing is written into
its output buffers — and continues processing the remaining entries of the
batch: every entry's output is `packEntry` of its own params/result pair, so
a failed single entry never aborts the batch. -/
theorem claim_C9_zero_dim_skipped (comp : Nat → Nat → List FColor → List Nat)
    (ps : List RenderParams) (rs : List RenderResult) (i : Nat)
    (hip : i < ps.length) (hir : i < rs.length)
    (hf : (ps.getD i dfltParam).pixels_as_float = false)
    (hz : (rs.getD i dfltResult).width = 0 ∨
      (rs.getD i dfltResult).height = 0) :
    (DoWork comp ps rs).getD i dfltResult = rs.getD i dfltResult ∧
    ∀ j, j < ps.length → j < rs.length →
      (DoWork comp ps rs).getD j dfltResult =
        packEntry comp (ps.getD j dfltParam) (rs.getD j dfltResult) := by
  constructor
  · rw [doWork_getD comp ps rs i hip hir]
    simp only [packEntry]
    rw [if_pos hf, if_neg (by rcases hz with hzz | hzz <;> rw [hzz] <;> simp)]
  · intro j hjp hjr
    exact doWork_getD comp ps rs j hjp hjr

/-- Witness for the amended C9 on the two-entry batch whose first entry has
`width = 0`. -/
theorem claim_C9_witness :
    (DoWork comp0 psW9 rsW9).getD 0 dfltResult = rsW9.getD 0 dfltResult ∧
    (∀ j, j < psW9.length → j < rsW9.length →
      (DoWork comp0 psW9 rsW9).getD j dfltResult =
        packEntry comp0 (psW9.getD j dfltParam) (rsW9.getD j dfltResult)) :=
  claim_C9_zero_dim_skipped comp0 psW9 rsW9 0 (by decide) (by decide)
    (by decide) (by decide)

end Colosseum
